import Mathlib

/-!
Verification of the periodic-prompt / matrix-responder logic of the Telegram
bot in `main.py`.

The bot keeps two in-memory structures:
  * `known_users : Set[int]` — the registry of user ids;
  * `pending_users : Dict[int, bool]` — user id ↦ True when the user is
    awaiting an integer N.  The only value the program ever stores in this
    dictionary is `True`, so the dictionary is faithfully represented by the
    finite set of its keys.

Randomness (`random.randint(0, 100)`) is modelled by an explicit stream
`rng : ℕ → ℕ` of raw draws; the k-th call to `randint lo hi` maps the raw
draw into `[lo, hi]`, exactly preserving the contract of `random.randint`
(the result always lies in the requested interval).

Network sends are modelled by oracles: `fails : ℕ → Bool` says whether the
prompt send to a given user raises, and `send_fails : Bool` says whether the
`reply_html` call with the formatted averages raises.  Python floats are
modelled by exact rationals; the display rounding of `"%.2f"` is modelled by
round-half-up on the exact value.
-/

/-- Outbound messages of the bot, one constructor per distinct send site in
`main.py`. -/
inductive Msg where
  /-- Welcome message of `start_command`. -/
  | welcome (uid : ℕ)
  /-- "Please enter an integer between 10 and 100 (inclusive)." sent by
  `ask_all_users` to `uid`. -/
  | prompt (uid : ℕ)
  /-- Static hint sent to a non-pending user by `handle_text`. -/
  | hint
  /-- "That's not an integer. ..." format-error reply. -/
  | formatError
  /-- "Please send an integer between 10 and 100 (inclusive)." range-error
  reply. -/
  | rangeError
  /-- "Generating a {n}×{n} matrix ..." progress message. -/
  | progress (n : ℤ)
  /-- `reply_html` with the formatted averages block for N = `n`. -/
  | result (n : ℤ) (body : String)
  /-- "Sorry, I couldn't send the result (error occurred)." -/
  | sendFailure
deriving DecidableEq

/-- The process-local state of the bot: the registry `known_users` and the
key set of the `pending_users` dictionary (the program only ever stores the
value `True`, so the dictionary is its key set). -/
structure BotState where
  known_users : Finset ℕ
  pending_users : Finset ℕ
deriving DecidableEq

/-- `random.randint lo hi` on one raw draw `r`: a value in `[lo, hi]`. -/
def randint (lo hi : ℕ) (r : ℕ) : ℕ := lo + r % (hi - lo + 1)

/-- `generate_matrix_and_row_averages(n)`: an `n × n` matrix of draws of
`randint 0 100` (entry `(i, j)` consumes raw draw `i * n + j`) together with
the list of row averages `sum(row) / len(row)` computed in exact
arithmetic. -/
def generate_matrix_and_row_averages (rng : ℕ → ℕ) (n : ℕ) :
    List (List ℕ) × List ℚ :=
  let matrix := (List.range n).map fun i =>
    (List.range n).map fun j => randint 0 100 (rng (i * n + j))
  let averages := matrix.map fun row => (row.sum : ℚ) / (row.length : ℚ)
  (matrix, averages)

/-- Left-pad a string with spaces to width `w` (no-op when already wide
enough), as Python's right-aligned numeric formatting does. -/
def pad_left (s : String) (w : ℕ) : String :=
  String.mk (List.replicate (w - s.length) ' ') ++ s

/-- Render a rational with exactly two digits after the decimal point,
modelling the `.2f` part of Python's `f"{val:6.2f}"` (display rounding is
round-half-up on the exact value). -/
def fix2 (q : ℚ) : String :=
  let c : ℤ := round (q * 100)
  let a := c.natAbs
  let sign := if c < 0 then "-" else ""
  sign ++ toString (a / 100) ++ "." ++
    (if a % 100 < 10 then "0" else "") ++ toString (a % 100)

/-- Python's `f"{val:6.2f}"`: two decimal digits, right-aligned to a minimum
width of 6. -/
def format_6_2 (q : ℚ) : String := pad_left (fix2 q) 6

/-- The per-average lines built in `format_averages_column`:
`f"[ {val:6.2f} ]"` for each value. -/
def format_lines (averages : List ℚ) : List String :=
  averages.map fun val => "[ " ++ format_6_2 val ++ " ]"

/-- `format_averages_column(averages)`: join the lines with newlines and wrap
the block in `<pre>…</pre>` for monospaced output. -/
def format_averages_column (averages : List ℚ) : String :=
  "<pre>" ++ String.intercalate "\n" (format_lines averages) ++ "</pre>"

/-- Python's `str.strip()`: remove leading and trailing whitespace. -/
def pyStrip (s : String) : String :=
  String.mk
    (((s.data.dropWhile Char.isWhitespace).reverse.dropWhile
      Char.isWhitespace).reverse)

/-- Value of a nonempty all-digit character list, `none` otherwise. -/
def digits_to_nat : List Char → Option ℕ
  | [] => none
  | cs =>
    if cs.all Char.isDigit then
      some (cs.foldl (fun acc c => 10 * acc + (c.toNat - 48)) 0)
    else none

/-- Python's `int(text)` on already-stripped text: an optional sign followed
by one or more decimal digits, `none` (a `ValueError`) otherwise. -/
def pyInt (s : String) : Option ℤ :=
  match s.data with
  | '+' :: rest => (digits_to_nat rest).map fun m => (m : ℤ)
  | '-' :: rest => (digits_to_nat rest).map fun m => -(m : ℤ)
  | cs => (digits_to_nat cs).map fun m => (m : ℤ)

/-- `start_command`: register the caller and send the welcome message. -/
def start_command (s : BotState) (uid : ℕ) : BotState × List Msg :=
  ({ s with known_users := insert uid s.known_users }, [Msg.welcome uid])

/-- One iteration of the loop body of `ask_all_users` for user `uid`: on a
successful send, the prompt goes out and the user is marked pending; on a
failing send, the user is removed from `known_users` and `pending_users`. -/
def askStep (fails : ℕ → Bool) (acc : BotState × List Msg) (uid : ℕ) :
    BotState × List Msg :=
  if fails uid then
    ({ known_users := acc.1.known_users.erase uid,
       pending_users := acc.1.pending_users.erase uid }, acc.2)
  else
    ({ acc.1 with pending_users := insert uid acc.1.pending_users },
     acc.2 ++ [Msg.prompt uid])

/-- `ask_all_users`: return immediately when no users are known, otherwise
iterate over `list(known_users)` — the iteration order of the Python set is
not specified, so the snapshot list is an explicit parameter (theorems
require it to enumerate `known_users` without duplicates). -/
def ask_all_users (fails : ℕ → Bool) (snapshot : List ℕ) (s : BotState) :
    BotState × List Msg :=
  if s.known_users = ∅ then (s, [])
  else snapshot.foldl (askStep fails) (s, [])

/-- `repeated_ask_job`: the 12-hourly JobQueue callback; it delegates to
`ask_all_users`. -/
def repeated_ask_job (fails : ℕ → Bool) (snapshot : List ℕ) (s : BotState) :
    BotState × List Msg :=
  ask_all_users fails snapshot s

/-- `trigger_now_command`: register the caller, then delegate to
`ask_all_users`. -/
def trigger_now_command (fails : ℕ → Bool) (snapshot : List ℕ) (caller : ℕ)
    (s : BotState) : BotState × List Msg :=
  ask_all_users fails snapshot
    { s with known_users := insert caller s.known_users }

/-- `handle_text`: the generic text handler.  `rng` feeds the matrix
generator and `send_fails` tells whether the `reply_html` call with the
result raises. -/
def handle_text (rng : ℕ → ℕ) (send_fails : Bool) (s : BotState) (uid : ℕ)
    (text : String) : BotState × List Msg :=
  let text := pyStrip text
  let s := { s with known_users := insert uid s.known_users }
  if uid ∉ s.pending_users then (s, [Msg.hint])
  else
    match pyInt text with
    | none => (s, [Msg.formatError])
    | some n =>
      if ¬ (10 ≤ n ∧ n ≤ 100) then (s, [Msg.rangeError])
      else
        let s := { s with pending_users := s.pending_users.erase uid }
        let averages := (generate_matrix_and_row_averages rng n.toNat).2
        let formatted := format_averages_column averages
        if send_fails then (s, [Msg.progress n, Msg.sendFailure])
        else (s, [Msg.progress n, Msg.result n formatted])

/-! ## Basic lemmas -/

theorem randint_le (lo hi r : ℕ) (h : lo ≤ hi) : randint lo hi r ≤ hi := by
  unfold randint
  have : r % (hi - lo + 1) < hi - lo + 1 := Nat.mod_lt _ (Nat.succ_pos _)
  omega

/-- C1: For every N in [10,100], `generate_matrix_and_row_averages(n)`
returns a matrix with exactly N rows, each row having exactly N integers
each in [0,100], and an averages list with exactly N entries whose i-th
entry is the exact arithmetic mean of the i-th row. -/
theorem generate_matrix_and_row_averages_spec (rng : ℕ → ℕ) (n : ℕ)
    (h1 : 10 ≤ n) (h2 : n ≤ 100) :
    (generate_matrix_and_row_averages rng n).1.length = n ∧
    (∀ row ∈ (generate_matrix_and_row_averages rng n).1,
      row.length = n ∧ ∀ x ∈ row, 0 ≤ x ∧ x ≤ 100) ∧
    (generate_matrix_and_row_averages rng n).2.length = n ∧
    (∀ (i : ℕ) (ha : i < (generate_matrix_and_row_averages rng n).2.length)
      (hm : i < (generate_matrix_and_row_averages rng n).1.length),
      (generate_matrix_and_row_averages rng n).2.get ⟨i, ha⟩ =
        (((generate_matrix_and_row_averages rng n).1.get ⟨i, hm⟩).sum : ℚ) /
        (((generate_matrix_and_row_averages rng n).1.get ⟨i, hm⟩).length : ℚ)) := by
  refine ⟨?_, ?_, ?_, ?_⟩
  · simp [generate_matrix_and_row_averages]
  · intro row hrow
    simp only [generate_matrix_and_row_averages, List.mem_map,
      List.mem_range] at hrow
    obtain ⟨i, _, rfl⟩ := hrow
    constructor
    · simp
    · intro x hx
      simp only [List.mem_map, List.mem_range] at hx
      obtain ⟨j, _, rfl⟩ := hx
      exact ⟨Nat.zero_le _, randint_le 0 100 _ (by omega)⟩
  · simp [generate_matrix_and_row_averages]
  · intro i ha hm
    simp [generate_matrix_and_row_averages]

/-- Witness for C1 at `n = 10` with the identity raw-draw stream. -/
theorem generate_matrix_and_row_averages_spec_witness :
    10 ≤ 10 ∧ 10 ≤ 100 ∧
    ((generate_matrix_and_row_averages (fun k => k) 10).1.length = 10 ∧
    (∀ row ∈ (generate_matrix_and_row_averages (fun k => k) 10).1,
      row.length = 10 ∧ ∀ x ∈ row, 0 ≤ x ∧ x ≤ 100) ∧
    (generate_matrix_and_row_averages (fun k => k) 10).2.length = 10 ∧
    (∀ (i : ℕ)
      (ha : i < (generate_matrix_and_row_averages (fun k => k) 10).2.length)
      (hm : i < (generate_matrix_and_row_averages (fun k => k) 10).1.length),
      (generate_matrix_and_row_averages (fun k => k) 10).2.get ⟨i, ha⟩ =
        (((generate_matrix_and_row_averages (fun k => k) 10).1.get
          ⟨i, hm⟩).sum : ℚ) /
        (((generate_matrix_and_row_averages (fun k => k) 10).1.get
          ⟨i, hm⟩).length : ℚ))) :=
  ⟨by decide, by decide,
    generate_matrix_and_row_averages_spec (fun k => k) 10 (by decide)
      (by decide)⟩

/-! ## `handle_text` theorems -/

/-- C8: a non-pending (IDLE) user who sends any free-text message gets the
static hint, stays non-pending, leaves the pending tracker unchanged, and is
registered afterwards. -/
theorem handle_text_idle (rng : ℕ → ℕ) (send_fails : Bool) (s : BotState)
    (uid : ℕ) (text : String) (h : uid ∉ s.pending_users) :
    (handle_text rng send_fails s uid text).1.pending_users =
      s.pending_users ∧
    uid ∉ (handle_text rng send_fails s uid text).1.pending_users ∧
    uid ∈ (handle_text rng send_fails s uid text).1.known_users ∧
    (handle_text rng send_fails s uid text).2 = [Msg.hint] := by
  simp [handle_text, h]

/-- Witness for C8: a fresh user sending "hello" to the initial state. -/
theorem handle_text_idle_witness :
    (7 ∉ (⟨∅, ∅⟩ : BotState).pending_users) ∧
    ((handle_text (fun _ => 0) false ⟨∅, ∅⟩ 7 "hello").1.pending_users =
      (⟨∅, ∅⟩ : BotState).pending_users ∧
    7 ∉ (handle_text (fun _ => 0) false ⟨∅, ∅⟩ 7 "hello").1.pending_users ∧
    7 ∈ (handle_text (fun _ => 0) false ⟨∅, ∅⟩ 7 "hello").1.known_users ∧
    (handle_text (fun _ => 0) false ⟨∅, ∅⟩ 7 "hello").2 = [Msg.hint]) :=
  ⟨by decide, handle_text_idle (fun _ => 0) false ⟨∅, ∅⟩ 7 "hello"
    (by decide)⟩

/-- C4: a pending user whose message does not parse as an integer stays
pending (the tracker is unchanged) and receives the format-error reply. -/
theorem handle_text_nonint (rng : ℕ → ℕ) (send_fails : Bool) (s : BotState)
    (uid : ℕ) (text : String) (h : uid ∈ s.pending_users)
    (hp : pyInt (pyStrip text) = none) :
    (handle_text rng send_fails s uid text).1.pending_users =
      s.pending_users ∧
    uid ∈ (handle_text rng send_fails s uid text).1.pending_users ∧
    (handle_text rng send_fails s uid text).2 = [Msg.formatError] := by
  simp [handle_text, h, hp]

/-- Witness for C4: a pending user sending "abc". -/
theorem handle_text_nonint_witness :
    (3 ∈ (⟨{3}, {3}⟩ : BotState).pending_users) ∧
    pyInt (pyStrip "abc") = none ∧
    ((handle_text (fun _ => 0) false ⟨{3}, {3}⟩ 3 "abc").1.pending_users =
      (⟨{3}, {3}⟩ : BotState).pending_users ∧
    3 ∈ (handle_text (fun _ => 0) false ⟨{3}, {3}⟩ 3 "abc").1.pending_users ∧
    (handle_text (fun _ => 0) false ⟨{3}, {3}⟩ 3 "abc").2 =
      [Msg.formatError]) :=
  ⟨by decide, by decide,
    handle_text_nonint (fun _ => 0) false ⟨{3}, {3}⟩ 3 "abc" (by decide)
      (by decide)⟩

/-- C5: a pending user whose message parses as an integer outside [10,100]
stays pending (the tracker is unchanged) and receives the range-error
reply. -/
theorem handle_text_out_of_range (rng : ℕ → ℕ) (send_fails : Bool)
    (s : BotState) (uid : ℕ) (text : String) (n : ℤ)
    (h : uid ∈ s.pending_users) (hp : pyInt (pyStrip text) = some n)
    (hr : ¬ (10 ≤ n ∧ n ≤ 100)) :
    (handle_text rng send_fails s uid text).1.pending_users =
      s.pending_users ∧
    uid ∈ (handle_text rng send_fails s uid text).1.pending_users ∧
    (handle_text rng send_fails s uid text).2 = [Msg.rangeError] := by
  simp [handle_text, h, hp, hr]

/-- Witness for C5: a pending user sending "5". -/
theorem handle_text_out_of_range_witness :
    (3 ∈ (⟨{3}, {3}⟩ : BotState).pending_users) ∧
    pyInt (pyStrip "5") = some 5 ∧
    ¬ ((10 : ℤ) ≤ 5 ∧ (5 : ℤ) ≤ 100) ∧
    ((handle_text (fun _ => 0) false ⟨{3}, {3}⟩ 3 "5").1.pending_users =
      (⟨{3}, {3}⟩ : BotState).pending_users ∧
    3 ∈ (handle_text (fun _ => 0) false ⟨{3}, {3}⟩ 3 "5").1.pending_users ∧
    (handle_text (fun _ => 0) false ⟨{3}, {3}⟩ 3 "5").2 =
      [Msg.rangeError]) :=
  ⟨by decide, by decide, by decide,
    handle_text_out_of_range (fun _ => 0) false ⟨{3}, {3}⟩ 3 "5" 5
      (by decide) (by decide) (by decide)⟩

/-- C2: a pending user whose message parses as an integer N in [10,100] has
the pending flag cleared, and (when the result send succeeds) the reply is
the formatted averages block: exactly N lines wrapped in `<pre>…</pre>`. -/
theorem handle_text_valid (rng : ℕ → ℕ) (s : BotState) (uid : ℕ)
    (text : String) (n : ℤ) (h : uid ∈ s.pending_users)
    (hp : pyInt (pyStrip text) = some n) (h10 : 10 ≤ n) (h100 : n ≤ 100) :
    (handle_text rng false s uid text).1.pending_users =
      s.pending_users.erase uid ∧
    uid ∉ (handle_text rng false s uid text).1.pending_users ∧
    (handle_text rng false s uid text).2 =
      [Msg.progress n,
       Msg.result n (format_averages_column
        ((generate_matrix_and_row_averages rng n.toNat).2))] ∧
    format_averages_column ((generate_matrix_and_row_averages rng n.toNat).2)
      = "<pre>" ++ String.intercalate "\n"
          (format_lines ((generate_matrix_and_row_averages rng n.toNat).2)) ++
        "</pre>" ∧
    (format_lines ((generate_matrix_and_row_averages rng n.toNat).2)).length
      = n.toNat := by
  refine ⟨?_, ?_, ?_, rfl, ?_⟩
  · simp [handle_text, h, hp, h10, h100]
  · simp [handle_text, h, hp, h10, h100]
  · simp [handle_text, h, hp, h10, h100]
  · simp [format_lines, generate_matrix_and_row_averages]

/-- Witness for C2: a pending user sending "10". -/
theorem handle_text_valid_witness :
    (3 ∈ (⟨{3}, {3}⟩ : BotState).pending_users) ∧
    pyInt (pyStrip "10") = some 10 ∧ (10 : ℤ) ≤ 10 ∧ (10 : ℤ) ≤ 100 ∧
    ((handle_text (fun _ => 0) false ⟨{3}, {3}⟩ 3 "10").1.pending_users =
      (⟨{3}, {3}⟩ : BotState).pending_users.erase 3 ∧
    3 ∉ (handle_text (fun _ => 0) false ⟨{3}, {3}⟩ 3 "10").1.pending_users ∧
    (handle_text (fun _ => 0) false ⟨{3}, {3}⟩ 3 "10").2 =
      [Msg.progress 10,
       Msg.result 10 (format_averages_column
        ((generate_matrix_and_row_averages (fun _ => 0) (10 : ℤ).toNat).2))] ∧
    format_averages_column
        ((generate_matrix_and_row_averages (fun _ => 0) (10 : ℤ).toNat).2)
      = "<pre>" ++ String.intercalate "\n"
          (format_lines
            ((generate_matrix_and_row_averages (fun _ => 0)
              (10 : ℤ).toNat).2)) ++ "</pre>" ∧
    (format_lines
      ((generate_matrix_and_row_averages (fun _ => 0)
        (10 : ℤ).toNat).2)).length = (10 : ℤ).toNat) :=
  ⟨by decide, by decide, by decide, by decide,
    handle_text_valid (fun _ => 0) ⟨{3}, {3}⟩ 3 "10" 10 (by decide)
      (by decide) (by decide) (by decide)⟩

/-- C10: a pending user who sends a valid N has the flag cleared before the
result is sent; when the result send then fails the flag stays cleared (the
user ends IDLE) and the only further message is the generic failure. -/
theorem handle_text_valid_send_failure (rng : ℕ → ℕ) (s : BotState)
    (uid : ℕ) (text : String) (n : ℤ) (h : uid ∈ s.pending_users)
    (hp : pyInt (pyStrip text) = some n) (h10 : 10 ≤ n) (h100 : n ≤ 100) :
    (handle_text rng true s uid text).1.pending_users =
      s.pending_users.erase uid ∧
    uid ∉ (handle_text rng true s uid text).1.pending_users ∧
    (handle_text rng true s uid text).2 =
      [Msg.progress n, Msg.sendFailure] := by
  simp [handle_text, h, hp, h10, h100]

/-- Witness for C10: a pending user sending "12" when the result send
fails. -/
theorem handle_text_valid_send_failure_witness :
    (4 ∈ (⟨{4}, {4}⟩ : BotState).pending_users) ∧
    pyInt (pyStrip "12") = some 12 ∧ (10 : ℤ) ≤ 12 ∧ (12 : ℤ) ≤ 100 ∧
    ((handle_text (fun _ => 0) true ⟨{4}, {4}⟩ 4 "12").1.pending_users =
      (⟨{4}, {4}⟩ : BotState).pending_users.erase 4 ∧
    4 ∉ (handle_text (fun _ => 0) true ⟨{4}, {4}⟩ 4 "12").1.pending_users ∧
    (handle_text (fun _ => 0) true ⟨{4}, {4}⟩ 4 "12").2 =
      [Msg.progress 12, Msg.sendFailure]) :=
  ⟨by decide, by decide, by decide, by decide,
    handle_text_valid_send_failure (fun _ => 0) ⟨{4}, {4}⟩ 4 "12" 12
      (by decide) (by decide) (by decide) (by decide)⟩

/-- Counterexample to C3: user 1 is pending and replies "abc" — the code
leaves the pending flag set, so the flag is not cleared on every reply. -/
theorem handle_text_pending_not_always_cleared :
    1 ∈ (handle_text (fun _ => 0) false ⟨{1}, {1}⟩ 1 "abc").1.pending_users
    := by decide

/-- C3 (amended): for a pending user, the pending flag is cleared exactly
when the reply parses as an integer in [10,100]; non-integer and
out-of-range replies leave the flag set. -/
theorem handle_text_pending_cleared_iff (rng : ℕ → ℕ) (send_fails : Bool)
    (s : BotState) (uid : ℕ) (text : String) (h : uid ∈ s.pending_users) :
    uid ∉ (handle_text rng send_fails s uid text).1.pending_users ↔
      ∃ n, pyInt (pyStrip text) = some n ∧ 10 ≤ n ∧ n ≤ 100 := by
  rcases hp : pyInt (pyStrip text) with _ | n
  · simp [handle_text, h, hp]
  · by_cases hr : 10 ≤ n ∧ n ≤ 100
    · rcases hr with ⟨h10, h100⟩
      constructor
      · intro _
        exact ⟨n, rfl, h10, h100⟩
      · intro _
        cases send_fails <;>
          simp [handle_text, h, hp, h10, h100, Finset.not_mem_erase]
    · constructor
      · intro hc
        exfalso
        apply hc
        simp [handle_text, h, hp, hr]
      · rintro ⟨m, hm, h10, h100⟩
        injection hm with hnm
        subst hnm
        exact (hr ⟨h10, h100⟩).elim

/-- Witness for the amended C3: a pending user sending "42" clears the
flag. -/
theorem handle_text_pending_cleared_iff_witness :
    (9 ∈ (⟨{9}, {9}⟩ : BotState).pending_users) ∧
    (9 ∉ (handle_text (fun _ => 0) false ⟨{9}, {9}⟩ 9 "42").1.pending_users ↔
      ∃ n, pyInt (pyStrip "42") = some n ∧ 10 ≤ n ∧ n ≤ 100) :=
  ⟨by decide,
    handle_text_pending_cleared_iff (fun _ => 0) false ⟨{9}, {9}⟩ 9 "42"
      (by decide)⟩

/-! ## Broadcast (`ask_all_users`) lemmas -/

/-- Registry membership after the broadcast loop: a user survives in
`known_users` exactly when it was there before and was not a failing member
of the iterated snapshot. -/
theorem askFold_known_mem (fails : ℕ → Bool) (l : List ℕ)
    (p : BotState × List Msg) (x : ℕ) :
    x ∈ (l.foldl (askStep fails) p).1.known_users ↔
      x ∈ p.1.known_users ∧ ¬ (x ∈ l ∧ fails x = true) := by
  induction l generalizing p with
  | nil => simp
  | cons a t ih =>
    rw [List.foldl_cons, ih]
    by_cases hf : fails a <;> by_cases hxa : x = a
    · subst hxa
      simp [askStep, hf]
    · simp [askStep, hf, hxa]
    · subst hxa
      simp [askStep, hf]
    · simp [askStep, hf, hxa]

/-- Pending-tracker membership after the broadcast loop: a user is pending
exactly when it was pending before or was a succeeding member of the
snapshot, and was not a failing member of the snapshot. -/
theorem askFold_pending_mem (fails : ℕ → Bool) (l : List ℕ)
    (p : BotState × List Msg) (x : ℕ) :
    x ∈ (l.foldl (askStep fails) p).1.pending_users ↔
      (x ∈ p.1.pending_users ∨ (x ∈ l ∧ fails x = false)) ∧
        ¬ (x ∈ l ∧ fails x = true) := by
  induction l generalizing p with
  | nil => simp
  | cons a t ih =>
    rw [List.foldl_cons, ih]
    by_cases hf : fails a <;> by_cases hxa : x = a
    · subst hxa
      simp [askStep, hf]
    · simp [askStep, hf, hxa]
    · subst hxa
      simp [askStep, hf]
    · simp [askStep, hf, hxa]

/-- C6: when exactly one user `u` of the broadcast snapshot fails, `u` and
only `u` is dropped from the registry and the pending tracker, every other
snapshot user stays registered and is marked pending, and registry
membership of all other users is untouched. -/
theorem ask_all_users_single_failure (u : ℕ) (snapshot : List ℕ)
    (s : BotState) (hsnap : snapshot.toFinset = s.known_users)
    (hu : u ∈ snapshot) :
    u ∉ (ask_all_users (fun w => w == u) snapshot s).1.known_users ∧
    u ∉ (ask_all_users (fun w => w == u) snapshot s).1.pending_users ∧
    (∀ v ∈ snapshot, v ≠ u →
      v ∈ (ask_all_users (fun w => w == u) snapshot s).1.known_users ∧
      v ∈ (ask_all_users (fun w => w == u) snapshot s).1.pending_users) ∧
    (∀ v : ℕ, v ≠ u →
      (v ∈ (ask_all_users (fun w => w == u) snapshot s).1.known_users ↔
        v ∈ s.known_users)) := by
  have hne : s.known_users ≠ ∅ := by
    intro h0
    have hmem : u ∈ snapshot.toFinset := List.mem_toFinset.mpr hu
    rw [hsnap, h0] at hmem
    exact absurd hmem (Finset.not_mem_empty u)
  unfold ask_all_users
  rw [if_neg hne]
  refine ⟨?_, ?_, ?_, ?_⟩
  · rw [askFold_known_mem]
    simp [hu]
  · rw [askFold_pending_mem]
    simp [hu]
  · intro v hv hvu
    constructor
    · rw [askFold_known_mem]
      refine ⟨?_, ?_⟩
      · rw [← hsnap]
        exact List.mem_toFinset.mpr hv
      · simp [hvu]
    · rw [askFold_pending_mem]
      exact ⟨Or.inr ⟨hv, by simp [hvu]⟩, by simp [hvu]⟩
  · intro v hvu
    rw [askFold_known_mem]
    simp [hvu]

/-- Witness for C6: broadcasting to the registry `{1, 2, 3}` where only the
send to user 2 fails. -/
theorem ask_all_users_single_failure_witness :
    ([1, 2, 3] : List ℕ).toFinset = (⟨{1, 2, 3}, ∅⟩ : BotState).known_users ∧
    (2 ∈ ([1, 2, 3] : List ℕ)) ∧
    (2 ∉ (ask_all_users (fun w => w == 2) [1, 2, 3]
      ⟨{1, 2, 3}, ∅⟩).1.known_users ∧
    2 ∉ (ask_all_users (fun w => w == 2) [1, 2, 3]
      ⟨{1, 2, 3}, ∅⟩).1.pending_users ∧
    (∀ v ∈ ([1, 2, 3] : List ℕ), v ≠ 2 →
      v ∈ (ask_all_users (fun w => w == 2) [1, 2, 3]
        ⟨{1, 2, 3}, ∅⟩).1.known_users ∧
      v ∈ (ask_all_users (fun w => w == 2) [1, 2, 3]
        ⟨{1, 2, 3}, ∅⟩).1.pending_users) ∧
    (∀ v : ℕ, v ≠ 2 →
      (v ∈ (ask_all_users (fun w => w == 2) [1, 2, 3]
        ⟨{1, 2, 3}, ∅⟩).1.known_users ↔
        v ∈ (⟨{1, 2, 3}, ∅⟩ : BotState).known_users))) :=
  ⟨by decide, by decide,
    ask_all_users_single_failure 2 [1, 2, 3] ⟨{1, 2, 3}, ∅⟩ (by decide)
      (by decide)⟩

/-! ## Invariant: pending entries form a subset of the registry -/

/-- `handle_text` always leaves the registry equal to the old registry with
the sender inserted. -/
theorem handle_text_known_eq (rng : ℕ → ℕ) (send_fails : Bool)
    (s : BotState) (uid : ℕ) (text : String) :
    (handle_text rng send_fails s uid text).1.known_users =
      insert uid s.known_users := by
  by_cases h : uid ∈ s.pending_users
  · rcases hp : pyInt (pyStrip text) with _ | n
    · simp [handle_text, h, hp]
    · by_cases hr : 10 ≤ n ∧ n ≤ 100
      · obtain ⟨h1, h2⟩ := hr
        cases send_fails <;> simp [handle_text, h, hp, h1, h2]
      · simp [handle_text, h, hp, hr]
  · simp [handle_text, h]

/-- `handle_text` never adds a pending entry: the resulting pending tracker
is contained in the old one. -/
theorem handle_text_pending_sub (rng : ℕ → ℕ) (send_fails : Bool)
    (s : BotState) (uid : ℕ) (text : String) :
    (handle_text rng send_fails s uid text).1.pending_users ⊆
      s.pending_users := by
  by_cases h : uid ∈ s.pending_users
  · rcases hp : pyInt (pyStrip text) with _ | n
    · simp [handle_text, h, hp]
    · by_cases hr : 10 ≤ n ∧ n ≤ 100
      · obtain ⟨h1, h2⟩ := hr
        cases send_fails <;> simp [handle_text, h, hp, h1, h2] <;>
          exact Finset.erase_subset _ _
      · simp [handle_text, h, hp, hr]
  · simp [handle_text, h]

/-- C7: the pending tracker stays a subset of the registry across every
operation: registration (`start_command`), a broadcast with arbitrary
successes and failures (`ask_all_users` over a snapshot of registered
users), and reply handling (`handle_text`). -/
theorem pending_subset_invariant :
    (∀ (s : BotState) (uid : ℕ),
      s.pending_users ⊆ s.known_users →
      (start_command s uid).1.pending_users ⊆
        (start_command s uid).1.known_users) ∧
    (∀ (fails : ℕ → Bool) (snapshot : List ℕ) (s : BotState),
      snapshot.toFinset ⊆ s.known_users →
      s.pending_users ⊆ s.known_users →
      (ask_all_users fails snapshot s).1.pending_users ⊆
        (ask_all_users fails snapshot s).1.known_users) ∧
    (∀ (rng : ℕ → ℕ) (send_fails : Bool) (s : BotState) (uid : ℕ)
      (text : String),
      s.pending_users ⊆ s.known_users →
      (handle_text rng send_fails s uid text).1.pending_users ⊆
        (handle_text rng send_fails s uid text).1.known_users) := by
  refine ⟨?_, ?_, ?_⟩
  · intro s uid hsub x hx
    simp only [start_command] at hx ⊢
    exact Finset.mem_insert_of_mem (hsub hx)
  · intro fails snapshot s hsnap hsub
    unfold ask_all_users
    by_cases hne : s.known_users = ∅
    · rw [if_pos hne]
      exact hsub
    · rw [if_neg hne]
      intro x hx
      rw [askFold_pending_mem] at hx
      rw [askFold_known_mem]
      obtain ⟨h1, h2⟩ := hx
      refine ⟨?_, h2⟩
      rcases h1 with h1 | ⟨hxl, _⟩
      · exact hsub h1
      · exact hsnap (List.mem_toFinset.mpr hxl)
  · intro rng send_fails s uid text hsub x hx
    rw [handle_text_known_eq]
    exact Finset.mem_insert_of_mem
      (hsub (handle_text_pending_sub rng send_fails s uid text hx))

/-- Witness for C7: each of the three preservation statements applied at a
concrete state satisfying the invariant. -/
theorem pending_subset_invariant_witness :
    ((⟨{1, 2}, {2}⟩ : BotState).pending_users ⊆
      (⟨{1, 2}, {2}⟩ : BotState).known_users) ∧
    (([1, 2] : List ℕ).toFinset ⊆ (⟨{1, 2}, {2}⟩ : BotState).known_users) ∧
    ((start_command ⟨{1, 2}, {2}⟩ 3).1.pending_users ⊆
      (start_command ⟨{1, 2}, {2}⟩ 3).1.known_users) ∧
    ((ask_all_users (fun w => w == 1) [1, 2]
        ⟨{1, 2}, {2}⟩).1.pending_users ⊆
      (ask_all_users (fun w => w == 1) [1, 2]
        ⟨{1, 2}, {2}⟩).1.known_users) ∧
    ((handle_text (fun _ => 0) false ⟨{1, 2}, {2}⟩ 2 "50").1.pending_users ⊆
      (handle_text (fun _ => 0) false ⟨{1, 2}, {2}⟩ 2 "50").1.known_users) :=
  ⟨by decide, by decide,
    pending_subset_invariant.1 ⟨{1, 2}, {2}⟩ 3 (by decide),
    pending_subset_invariant.2.1 (fun w => w == 1) [1, 2] ⟨{1, 2}, {2}⟩
      (by decide) (by decide),
    pending_subset_invariant.2.2 (fun _ => 0) false ⟨{1, 2}, {2}⟩ 2 "50"
      (by decide)⟩

/-! ## Manual trigger vs scheduled job -/

/-- Counterexample to C9: from the empty state, `/trigger_now` invoked by
user 1 registers the caller and prompts them, while the scheduled job does
nothing — the two effects on registry, tracker and sent prompts differ. -/
theorem trigger_now_differs_from_job :
    trigger_now_command (fun _ => false) [1] 1 ⟨∅, ∅⟩ ≠
      repeated_ask_job (fun _ => false) [] ⟨∅, ∅⟩ := by decide

/-- C9 (amended): when the invoking caller is already registered, the manual
trigger and the scheduled job are observably identical — same resulting
registry, same pending tracker, same prompt sequence — and re-marking an
already-pending user during a broadcast is idempotent on the tracker. -/
theorem trigger_now_eq_job_of_registered (fails : ℕ → Bool)
    (snapshot : List ℕ) (caller : ℕ) (s : BotState)
    (h : caller ∈ s.known_users) :
    trigger_now_command fails snapshot caller s =
      repeated_ask_job fails snapshot s ∧
    (∀ (u : ℕ) (p : BotState × List Msg), u ∈ p.1.pending_users →
      fails u = false →
      (askStep fails p u).1.pending_users = p.1.pending_users) := by
  constructor
  · have hs : ({ s with known_users := insert caller s.known_users } :
        BotState) = s := by
      rw [Finset.insert_eq_self.mpr h]
    unfold trigger_now_command repeated_ask_job
    rw [hs]
  · intro u p hu hf
    simp [askStep, hf, Finset.insert_eq_self.mpr hu]

/-- Witness for the amended C9: an already-registered caller triggers the
broadcast manually. -/
theorem trigger_now_eq_job_of_registered_witness :
    (5 ∈ (⟨{5}, {5}⟩ : BotState).known_users) ∧
    (trigger_now_command (fun _ => false) [5] 5 ⟨{5}, {5}⟩ =
      repeated_ask_job (fun _ => false) [5] ⟨{5}, {5}⟩ ∧
    (∀ (u : ℕ) (p : BotState × List Msg), u ∈ p.1.pending_users →
      (fun _ => false) u = false →
      (askStep (fun _ => false) p u).1.pending_users = p.1.pending_users)) :=
  ⟨by decide,
    trigger_now_eq_job_of_registered (fun _ => false) [5] 5 ⟨{5}, {5}⟩
      (by decide)⟩
